import Mathlib

/-!
Shallow embedding of the `policygopher` resource-manager core
(`resourcemanager.go`, `main.go`): role resolution with memoization,
policy normalization across the two provider schema versions,
binding flattening into rows, tier aggregation, organization-id
derivation, and the CSV row printing loop.

External collaborators (the cloud provider's listing / policy /
role-lookup services and credential discovery) are modelled as
explicit deterministic oracles passed in as functions; machine state
(the role memoization map, the count of underlying service calls) is
threaded explicitly. A Go `nil`-dereference or out-of-bounds panic is
modelled as `Option.none` at the function's result.
-/

namespace PolicyGopher

/-- `iam.Role`: only the field the program reads. -/
structure Role where
  IncludedPermissions : List String
deriving Repr, DecidableEq

/-- One flattened output fact (`Row` in `resourcemanager.go`). -/
structure Row where
  Resource : String
  «Type» : String
  Role : String
  Member : String
deriving Repr, DecidableEq

/-- The mutable part of `resourceManager` relevant to role resolution:
the memoization map `roleMap` (an association list standing for the Go
map, most recent insertion first) together with a count of underlying
`service.Roles.Get(uri).Do()` calls issued so far. -/
structure RMState where
  roleMap : List (String × Role)
  calls : Nat
deriving Repr, DecidableEq

/-- The role-lookup service `service.Roles.Get(uri).Do()`, as a
deterministic oracle: `none` means the call returns an error. -/
def RoleSvc : Type := String → Option Role

/-- `_getRoleByUri`: consult the memoization map first; on a miss issue
one service call, memoizing the result under `uri` on success. -/
def getRoleByUri (svc : RoleSvc) (uri : String) (s : RMState) :
    Except String Role × RMState :=
  match s.roleMap.lookup uri with
  | some role => (.ok role, s)
  | none =>
    match svc uri with
    | some role => (.ok role, ⟨(uri, role) :: s.roleMap, s.calls + 1⟩)
    | none => (.error ("uri[" ++ uri ++ "]: lookup failed"), ⟨s.roleMap, s.calls + 1⟩)

/-- The resource-scoped candidate URI `fmt.Sprintf("%ss/%s/%s",
row.Type, row.Resource, row.Role)` built in `GetRole`. -/
def tryUriOf (row : Row) : String :=
  row.«Type» ++ "s/" ++ row.Resource ++ "/" ++ row.Role

/-- `resourceManager.GetRole`: for `project`/`organization` rows try the
resource-scoped URI first; on its failure (or for any other resource
kind) try the role reference verbatim. -/
def GetRole (svc : RoleSvc) (row : Row) (s : RMState) :
    Except String Role × RMState :=
  if row.«Type» = "project" ∨ row.«Type» = "organization" then
    match getRoleByUri svc (tryUriOf row) s with
    | (.ok role, s') => (.ok role, s')
    | (.error _, s') =>
      match getRoleByUri svc row.Role s' with
      | (.ok role, s'') => (.ok role, s'')
      | (.error e, s'') => (.error e, s'')
  else
    match getRoleByUri svc row.Role s with
    | (.ok role, s') => (.ok role, s')
    | (.error e, s') => (.error e, s')

/-- `resourceManager.GetRolePermissions`: project the resolved role to
its permission list, decorating a resolution error with the row. -/
def GetRolePermissions (svc : RoleSvc) (row : Row) (s : RMState) :
    Except String (List String) × RMState :=
  match GetRole svc row s with
  | (.error e, s') => (.error ("row: " ++ row.Resource ++ ": " ++ e), s')
  | (.ok role, s') => (.ok role.IncludedPermissions, s')

/-- Canonical condition expression (`Expr`). -/
structure Expr where
  Description : String
  Expression : String
  Location : String
  Title : String
deriving Repr, DecidableEq

/-- `v1beta1.Expr` as received from the provider. -/
structure V1Expr where
  Description : String
  Expression : String
  Location : String
  Title : String
deriving Repr, DecidableEq

/-- `v2beta1.Expr` as received from the provider. -/
structure V2Expr where
  Description : String
  Expression : String
  Location : String
  Title : String
deriving Repr, DecidableEq

/-- Canonical `Binding`; `Condition` is a nullable pointer in the
source, hence `Option`. -/
structure Binding where
  Condition : Option Expr
  Members : List String
  Role : String
deriving Repr, DecidableEq

/-- `&Binding{}`: the zero value allocated by `convertBindingsV1/V2`. -/
def Binding.empty : Binding := ⟨none, [], ""⟩

/-- `v1beta1.Binding` as received from the provider. -/
structure V1Binding where
  Condition : Option V1Expr
  Members : List String
  Role : String
deriving Repr, DecidableEq

/-- `v2beta1.Binding` as received from the provider. -/
structure V2Binding where
  Condition : Option V2Expr
  Members : List String
  Role : String
deriving Repr, DecidableEq

/-- `v1beta1.Policy` as received from the provider. -/
structure V1Policy where
  Bindings : List V1Binding
  Etag : String
deriving Repr, DecidableEq

/-- `v2beta1.Policy` as received from the provider. -/
structure V2Policy where
  Bindings : List V2Binding
  Etag : String
deriving Repr, DecidableEq

/-- Canonical `Policy`. -/
structure Policy where
  Bindings : List Binding
  Etag : String
deriving Repr, DecidableEq

/-- `&Policy{}`: the zero value allocated by the policy getters. -/
def Policy.empty : Policy := ⟨[], ""⟩

/-- `Expr.convertV1`: copy every field from the v1 source expression
into the receiver. -/
def Expr.convertV1 (_e : Expr) (expr : V1Expr) : Expr :=
  ⟨expr.Description, expr.Expression, expr.Location, expr.Title⟩

/-- `Expr.convertV2`: copy every field from the v2 source expression
into the receiver. -/
def Expr.convertV2 (_e : Expr) (expr : V2Expr) : Expr :=
  ⟨expr.Description, expr.Expression, expr.Location, expr.Title⟩

/-- `Binding.convertV1`. Note: the source tests `b.Condition != nil` on
the receiver `b` (not on the source `binding`); when that receiver
condition is non-nil it allocates a fresh `&Expr\x7b\x7d` and converts from
`binding.Condition`, which dereferences a nil pointer (modelled as
`none`) when the source condition is absent. -/
def Binding.convertV1 (b : Binding) (binding : V1Binding) : Option Binding :=
  let b := { b with Members := binding.Members, Role := binding.Role }
  match b.Condition with
  | some _ =>
    match binding.Condition with
    | some srcCond => some { b with Condition := some (Expr.convertV1 ⟨"", "", "", ""⟩ srcCond) }
    | none => none
  | none => some b

/-- `Binding.convertV2`: same shape as `Binding.convertV1`, for the v2
schema. -/
def Binding.convertV2 (b : Binding) (binding : V2Binding) : Option Binding :=
  let b := { b with Members := binding.Members, Role := binding.Role }
  match b.Condition with
  | some _ =>
    match binding.Condition with
    | some srcCond => some { b with Condition := some (Expr.convertV2 ⟨"", "", "", ""⟩ srcCond) }
    | none => none
  | none => some b

/-- The element loop of `convertBindingsV1`: allocate a fresh
`&Binding\x7b\x7d` per source element and convert it, in order. -/
def convertEachV1 : List V1Binding → Option (List Binding)
  | [] => some []
  | b :: rest =>
    match Binding.empty.convertV1 b, convertEachV1 rest with
    | some cb, some cbs => some (cb :: cbs)
    | _, _ => none

/-- The element loop of `convertBindingsV2`. -/
def convertEachV2 : List V2Binding → Option (List Binding)
  | [] => some []
  | b :: rest =>
    match Binding.empty.convertV2 b, convertEachV2 rest with
    | some cb, some cbs => some (cb :: cbs)
    | _, _ => none

/-- `Policy.convertBindingsV1`: convert each v1 binding into a freshly
allocated canonical binding, in order. -/
def Policy.convertBindingsV1 (p : Policy) (bindings : List V1Binding) : Option Policy :=
  (convertEachV1 bindings).map (fun bs => { p with Bindings := bs })

/-- `Policy.convertBindingsV2`. -/
def Policy.convertBindingsV2 (p : Policy) (bindings : List V2Binding) : Option Policy :=
  (convertEachV2 bindings).map (fun bs => { p with Bindings := bs })

/-- `Policy.convertV1`: copy the etag, then convert the bindings. -/
def Policy.convertV1 (p : Policy) (policy : V1Policy) : Option Policy :=
  Policy.convertBindingsV1 { p with Etag := policy.Etag } policy.Bindings

/-- `Policy.convertV2`. -/
def Policy.convertV2 (p : Policy) (policy : V2Policy) : Option Policy :=
  Policy.convertBindingsV2 { p with Etag := policy.Etag } policy.Bindings

/-- `ResourceId` (canonical ancestry node identity). -/
structure ResourceId where
  Id : String
  «Type» : String
deriving Repr, DecidableEq

/-- Canonical `Ancestor`. -/
structure Ancestor where
  ResourceId : ResourceId
deriving Repr, DecidableEq

/-- `v1beta1.Ancestor` as received from the provider. -/
structure V1Ancestor where
  ResourceId : ResourceId
deriving Repr, DecidableEq

/-- The dynamically typed (`interface\x7b\x7d`) ancestor list handed to
`convertAncestors`: either the recognized `[]*v1beta1.Ancestor` shape,
or any other shape (which the type assertion rejects). -/
inductive RawAncestors where
  | v1 (ancestors : List V1Ancestor)
  | unrecognized
deriving Repr, DecidableEq

/-- `convertAncestors`: convert the recognized shape element-wise;
silently produce the empty sequence for any other shape. -/
def convertAncestors (ancestors : RawAncestors) : List Ancestor :=
  match ancestors with
  | .v1 l => l.map (fun a => ⟨⟨a.ResourceId.Id, a.ResourceId.«Type»⟩⟩)
  | .unrecognized => []

/-- `Projects.GetAncestry` as a deterministic oracle. -/
def AncestrySvc : Type := String → Except String RawAncestors

/-- `resourceManager.GetAncestryForProject`. -/
def GetAncestryForProject (svc : AncestrySvc) (projectId : String) :
    Except String (List Ancestor) :=
  match svc projectId with
  | .error e => .error e
  | .ok raw => .ok (convertAncestors raw)

/-- `resourceManager.GetOrgIdFromProjectId`: take the ancestor at index
`len-1` (the outermost). The index is out of bounds when the ancestry
is empty, a runtime panic, modelled as `none`. -/
def GetOrgIdFromProjectId (svc : AncestrySvc) (projectId : String) :
    Option (Except String String) :=
  match GetAncestryForProject svc projectId with
  | .error e => some (.error ("Unable to get org for project " ++ projectId ++ ": " ++ e))
  | .ok thisProjectAncestry =>
    match thisProjectAncestry.get? (thisProjectAncestry.length - 1) with
    | none => none
    | some a => some (.ok a.ResourceId.Id)

/-- Outcome of `getProjectIdFromCredentials` (credential discovery is
an external collaborator; its internal sub-paths — default credentials,
stat, file read, JSON parse — are collapsed into one oracle outcome). -/
def CredSvc : Type := Except String String

/-- How many external lookups `NewResourceManager` issued: credential
discovery calls and ancestry (`GetOrgIdFromProjectId`) calls. -/
structure NRMCalls where
  cred : Nat
  ancestry : Nat
deriving Repr, DecidableEq

/-- `NewResourceManager` organization-id derivation: an explicit org id
is used as-is; otherwise an explicit project id (else a
credential-discovered one) is pushed through `GetOrgIdFromProjectId`.
First component: `some (.ok orgId)` on success, `some (.error _)` on a
returned error, `none` for the empty-ancestry panic. -/
def NewResourceManager (cred : CredSvc) (anc : AncestrySvc) (orgId projectId : String) :
    Option (Except String String) × NRMCalls :=
  if orgId = "" then
    if projectId = "" then
      match cred with
      | .error err =>
        (some (.error ("Unable to identify OrgId, please specify on CLI or gcloud credentials: " ++ err)),
         ⟨1, 0⟩)
      | .ok p =>
        match GetOrgIdFromProjectId anc p with
        | none => (none, ⟨1, 1⟩)
        | some (.error e) =>
          (some (.error ("Error getting OrgId from ProjectId " ++ p ++ ": " ++ e)), ⟨1, 1⟩)
        | some (.ok o) => (some (.ok o), ⟨1, 1⟩)
    else
      match GetOrgIdFromProjectId anc projectId with
      | none => (none, ⟨0, 1⟩)
      | some (.error e) =>
        -- the source interpolates `p` into this message, and `p` is
        -- still the empty string on this path
        (some (.error ("Error getting OrgId from ProjectId " ++ "" ++ ": " ++ e)), ⟨0, 1⟩)
      | some (.ok o) => (some (.ok o), ⟨0, 1⟩)
  else (some (.ok orgId), ⟨0, 0⟩)

/-- `v2beta1.Folder`: only the name is used by the core. -/
structure Folder where
  Name : String
deriving Repr, DecidableEq

/-- `Project` as kept by the core. -/
structure Project where
  Name : String
  ProjectId : String
deriving Repr, DecidableEq

/-- The listing and policy-retrieval collaborators, as deterministic
oracles (each drains its own pagination internally). -/
structure Services where
  orgPolicy : String → Except String V1Policy
  foldersList : String → Except String (List Folder)
  folderPolicy : String → Except String V2Policy
  projectsList : String → Except String (List Project)
  projectPolicy : String → Except String V1Policy

/-- `resourceManager.FoldersList` (parent-filtered listing). -/
def FoldersList (svc : Services) (parent : String) : Except String (List Folder) :=
  svc.foldersList parent

/-- `resourceManager.ProjectsListByFilter`. -/
def ProjectsListByFilter (svc : Services) (filter : String) : Except String (List Project) :=
  svc.projectsList filter

/-- `resourceManager.ProjectsList`: projects filtered to the parent
organization. -/
def ProjectsList (svc : Services) (orgId : String) : Except String (List Project) :=
  ProjectsListByFilter svc ("parent.type:organization parent.id:" ++ orgId)

/-- `resourceManager.GetIamPolicyForProject`: fetch the v1 policy and
normalize it (`none` = conversion panic, impossible in practice). -/
def GetIamPolicyForProject (svc : Services) (projectId : String) :
    Option (Except String Policy) :=
  match svc.projectPolicy projectId with
  | .error e => some (.error e)
  | .ok policyResponse => (Policy.empty.convertV1 policyResponse).map .ok

/-- `resourceManager.GetIamPolicyForOrganization`. -/
def GetIamPolicyForOrganization (svc : Services) (orgId : String) :
    Option (Except String Policy) :=
  match svc.orgPolicy ("organizations/" ++ orgId) with
  | .error e => some (.error e)
  | .ok policyResponse => (Policy.empty.convertV1 policyResponse).map .ok

/-- `resourceManager.GetIamPolicyForFolder`: the folder tier uses the
v2 schema. -/
def GetIamPolicyForFolder (svc : Services) (folderId : String) :
    Option (Except String Policy) :=
  match svc.folderPolicy folderId with
  | .error e => some (.error e)
  | .ok policyResponse => (Policy.empty.convertV2 policyResponse).map .ok

/-- `addBindings`: append one row per (binding, member) pair, in
binding order then member order, to the accumulated rows. -/
def addBindings (bindings : List Binding) (rows : List Row) (resource resType : String) :
    List Row :=
  bindings.foldl (fun rows b =>
    b.Members.foldl (fun rows m =>
      rows ++ [{ Resource := resource, «Type» := resType, Role := b.Role, Member := m }]) rows)
    rows

/-- The folder loop body of `GetFolderPolicyRows`: fetch each folder's
policy in order; a retrieval error stops the loop, returning the rows
accumulated so far together with the error. -/
def folderLoop (svc : Services) (folders : List Folder) (rows : List Row) :
    Option (List Row × Option String) :=
  match folders with
  | [] => some (rows, none)
  | f :: rest =>
    match GetIamPolicyForFolder svc f.Name with
    | none => none
    | some (.error e) => some (rows, some e)
    | some (.ok policy) => folderLoop svc rest (addBindings policy.Bindings rows f.Name ("folder"))

/-- `resourceManager.GetFolderPolicyRows`. -/
def GetFolderPolicyRows (svc : Services) (orgId : String) :
    Option (List Row × Option String) :=
  match FoldersList svc ("organizations/" ++ orgId) with
  | .error e => some ([], some e)
  | .ok folders => folderLoop svc folders []

/-- The project loop body of `GetProjectPolicyRows`. -/
def projectLoop (svc : Services) (projects : List Project) (rows : List Row) :
    Option (List Row × Option String) :=
  match projects with
  | [] => some (rows, none)
  | p :: rest =>
    match GetIamPolicyForProject svc p.ProjectId with
    | none => none
    | some (.error e) => some (rows, some e)
    | some (.ok policy) => projectLoop svc rest (addBindings policy.Bindings rows p.Name ("project"))

/-- `resourceManager.GetProjectPolicyRows`. -/
def GetProjectPolicyRows (svc : Services) (orgId : String) :
    Option (List Row × Option String) :=
  match ProjectsList svc orgId with
  | .error e => some ([], some e)
  | .ok projects => projectLoop svc projects []

/-- `resourceManager.GetOrgPolicyRows`. -/
def GetOrgPolicyRows (svc : Services) (orgId : String) :
    Option (List Row × Option String) :=
  match GetIamPolicyForOrganization svc orgId with
  | none => none
  | some (.error e) => some ([], some e)
  | some (.ok orgPolicy) =>
    some (addBindings orgPolicy.Bindings [] orgId ("organization"), none)

/-- `resourceManager.GetAllPolicyRows`: organization tier, then folder
tier, then project tier; on any tier error the row pointer returned is
nil (`none`) and the error is surfaced. -/
def GetAllPolicyRows (svc : Services) (orgId : String) :
    Option (Option (List Row) × Option String) :=
  match GetOrgPolicyRows svc orgId with
  | none => none
  | some (_, some e) => some (none, some e)
  | some (orgRows, none) =>
    match GetFolderPolicyRows svc orgId with
    | none => none
    | some (_, some e) => some (none, some e)
    | some (folderRows, none) =>
      match GetProjectPolicyRows svc orgId with
      | none => none
      | some (_, some e) => some (none, some e)
      | some (projectRows, none) =>
        some (some (orgRows ++ folderRows ++ projectRows), none)

/-- One CSV output line of `Row.Print`:
`Resource,Type,Member,Role,Permission`. -/
def csvLine (r : Row) (p : String) : String :=
  r.Resource ++ "," ++ r.«Type» ++ "," ++ r.Member ++ "," ++ r.Role ++ "," ++ p

/-- What one `Row.Print` call produced: the CSV lines written, the
lines logged to stderr, and the error value the method returned. -/
structure PrintResult where
  lines : List String
  logged : List String
  returnedError : Option String
deriving Repr, DecidableEq

/-- `Row.Print`: resolve the row's role; on a resolution error log it
and substitute the sentinel permission list `["UNKNOWN"]`; write one
CSV line per permission. The writer is modelled as always succeeding;
the outer error (the resolution error, due to shadowing of `err` in
the write loop) is what the method returns. -/
def Row.Print (svc : RoleSvc) (r : Row) (s : RMState) : PrintResult × RMState :=
  match GetRolePermissions svc r s with
  | (.error e, s') =>
    let permissions := ["UNKNOWN"]
    (⟨permissions.map (csvLine r), ["Error getting permissions for " ++ r.Role], some e⟩, s')
  | (.ok permissions, s') => (⟨permissions.map (csvLine r), [], none⟩, s')

/-- The row loop of `printToCsv`: print every row in order; a non-nil
error returned by `Row.Print` is logged and the loop continues.
Returns (CSV lines, log lines) and the final resolver state. -/
def printRowsLoop (svc : RoleSvc) : List Row → RMState → (List String × List String) × RMState
  | [], s => (([], []), s)
  | r :: rest, s =>
    let pr := Row.Print svc r s
    let extra := match pr.1.returnedError with
      | some e => [e]
      | none => []
    let lp := printRowsLoop svc rest pr.2
    ((pr.1.lines ++ lp.1.1, pr.1.logged ++ extra ++ lp.1.2), lp.2)

/-! ### Concrete instances used by witnesses and counterexamples -/

/-- A custom role existing at the scoped URI `projects/P/roles/myrole`. -/
def roleA : Role := ⟨["perm.a", "perm.b"]⟩

/-- A role-lookup oracle knowing exactly the custom role
`projects/P/roles/myrole`. -/
def svcA : RoleSvc := fun u => if u = "projects/P/roles/myrole" then some roleA else none

/-- The spec scenario's binding row: kind `project`, resource `P`, role
reference `myrole`. -/
def rowBare : Row := ⟨"P", "project", "myrole", "user:a"⟩

/-- The same binding row with the role reference `roles/myrole`. -/
def rowPrefixed : Row := ⟨"P", "project", "roles/myrole", "user:a"⟩

/-- A folder-kind row. -/
def rowFolder : Row := ⟨"folders/F", "folder", "roles/viewer", "user:a"⟩

/-- The initial resolver state: empty memoization map, no calls. -/
def s0 : RMState := ⟨[], 0⟩

/-- An ancestry oracle returning an unrecognized ancestor-list shape. -/
def ancU : AncestrySvc := fun _ => .ok .unrecognized

/-- An ancestry oracle returning a well-formed two-level ancestry. -/
def ancOk : AncestrySvc := fun _ => .ok (.v1 [⟨⟨"p", "project"⟩⟩, ⟨⟨"ORG", "organization"⟩⟩])

/-- A credential-discovery oracle that fails. -/
def credFail : CredSvc := .error ("no credentials")

/-- Listing/policy oracles where the organization tier succeeds (one
binding, one member) but the policy of the second of three folders
fails. -/
def svcFail : Services where
  orgPolicy := fun _ => .ok ⟨[⟨none, ["user:a"], "roles/viewer"⟩], "et1"⟩
  foldersList := fun _ => .ok [⟨"folders/F1"⟩, ⟨"folders/F2"⟩, ⟨"folders/F3"⟩]
  folderPolicy := fun f => if f = "folders/F2" then .error ("boom") else .ok ⟨[], "et2"⟩
  projectsList := fun _ => .ok []
  projectPolicy := fun _ => .ok ⟨[], "et3"⟩

/-- Listing/policy oracles realizing the spec's end-to-end scenario:
one org binding with two members, one folder with no bindings, one
project with one binding and one member. -/
def svcOk : Services where
  orgPolicy := fun _ => .ok ⟨[⟨none, ["user:a@x.com", "group:g@x.com"], "roles/viewer"⟩], "e1"⟩
  foldersList := fun _ => .ok [⟨"folders/F"⟩]
  folderPolicy := fun _ => .ok ⟨[], "e2"⟩
  projectsList := fun _ => .ok [⟨"P", "P"⟩]
  projectPolicy := fun _ => .ok ⟨[⟨none, ["user:b@x.com"], "roles/editor"⟩], "e3"⟩

/-! ### Helper lemmas -/

/-- Appending one mapped element at a time is mapping. -/
theorem foldl_append_singleton {α β : Type} (f : α → β) (l : List α) (acc : List β) :
    l.foldl (fun acc m => acc ++ [f m]) acc = acc ++ l.map f := by
  induction l generalizing acc with
  | nil => simp
  | cons x xs ih => simp [ih]

/-- `addBindings` is the order-preserving fan-out appended to the
accumulated rows. -/
theorem addBindings_eq (bindings : List Binding) (rows : List Row) (resource resType : String) :
    addBindings bindings rows resource resType
      = rows ++ bindings.flatMap (fun b => b.Members.map
          (fun m => ⟨resource, resType, b.Role, m⟩)) := by
  induction bindings generalizing rows with
  | nil => simp [addBindings]
  | cons b bs ih =>
    simp only [addBindings, List.foldl_cons] at ih ⊢
    rw [foldl_append_singleton, ih, List.flatMap_cons, List.append_assoc]

/-- Every row produced by `addBindings` beyond the accumulator carries
the resource kind it was called with. -/
theorem addBindings_types (bindings : List Binding) (rows : List Row) (resource resType : String) :
    ∀ r ∈ addBindings bindings rows resource resType, r ∈ rows ∨ r.«Type» = resType := by
  intro r hr
  rw [addBindings_eq] at hr
  rcases List.mem_append.mp hr with h | h
  · exact Or.inl h
  · right
    obtain ⟨b, _, hb⟩ := List.mem_flatMap.mp h
    obtain ⟨m, _, hm⟩ := List.mem_map.mp hb
    rw [← hm]

/-- A cache hit returns the cached role and leaves the state alone. -/
theorem getRoleByUri_hit (svc : RoleSvc) (uri : String) (s : RMState) (role : Role)
    (h : s.roleMap.lookup uri = some role) :
    getRoleByUri svc uri s = (.ok role, s) := by
  simp [getRoleByUri, h]

/-- A cache miss on a URI the service does not know fails, charging one
service call and leaving the memoization map alone. -/
theorem getRoleByUri_miss_none (svc : RoleSvc) (uri : String) (s : RMState)
    (h1 : s.roleMap.lookup uri = none) (h2 : svc uri = none) :
    getRoleByUri svc uri s
      = (.error ("uri[" ++ uri ++ "]: lookup failed"), ⟨s.roleMap, s.calls + 1⟩) := by
  simp [getRoleByUri, h1, h2]

/-- After a successful lookup the role is memoized under exactly the
URI used: that key maps to the role, every other key is unchanged, and
at most one service call was charged. -/
theorem getRoleByUri_ok (svc : RoleSvc) (uri : String) (s : RMState) (role : Role) (s' : RMState)
    (h : getRoleByUri svc uri s = (.ok role, s')) :
    s'.roleMap.lookup uri = some role
    ∧ (∀ k, k ≠ uri → s'.roleMap.lookup k = s.roleMap.lookup k)
    ∧ s'.calls ≤ s.calls + 1 := by
  unfold getRoleByUri at h
  cases hl : s.roleMap.lookup uri with
  | some r =>
    rw [hl] at h
    simp only [Prod.mk.injEq, Except.ok.injEq] at h
    obtain ⟨rfl, rfl⟩ := h
    exact ⟨hl, fun k _ => rfl, Nat.le_succ _⟩
  | none =>
    rw [hl] at h
    cases hs : svc uri with
    | some r =>
      rw [hs] at h
      simp only [Prod.mk.injEq, Except.ok.injEq] at h
      obtain ⟨rfl, rfl⟩ := h
      refine ⟨?_, ?_, Nat.le_refl _⟩
      · simp [List.lookup_cons]
      · intro k hk
        simp [List.lookup_cons, beq_false_of_ne hk]
    | none => rw [hs] at h; simp at h

/-- A failed lookup leaves the memoization map alone, charges one
service call, and implies both the cache and the service missed. -/
theorem getRoleByUri_err (svc : RoleSvc) (uri : String) (s : RMState) (e : String) (s' : RMState)
    (h : getRoleByUri svc uri s = (.error e, s')) :
    s'.roleMap = s.roleMap ∧ s.roleMap.lookup uri = none ∧ svc uri = none
    ∧ s'.calls = s.calls + 1 := by
  unfold getRoleByUri at h
  cases hl : s.roleMap.lookup uri with
  | some r => rw [hl] at h; simp at h
  | none =>
    rw [hl] at h
    cases hs : svc uri with
    | some r => rw [hs] at h; simp at h
    | none =>
      rw [hs] at h
      simp only [Prod.mk.injEq, Except.error.injEq] at h
      obtain ⟨rfl, rfl⟩ := h
      exact ⟨rfl, rfl, rfl, rfl⟩

/-- The verbatim-lookup repackaging match in `GetRole` is the
identity. -/
theorem match_pair_id (x : Except String Role × RMState) :
    (match x with
     | (.ok role, s') => ((.ok role : Except String Role), s')
     | (.error e, s') => (.error e, s')) = x := by
  rcases x with ⟨e | r, s'⟩ <;> rfl

/-- Outside the `project`/`organization` kinds, `GetRole` is exactly
the verbatim lookup. -/
theorem GetRole_other (svc : RoleSvc) (row : Row) (s : RMState)
    (h : ¬(row.«Type» = "project" ∨ row.«Type» = "organization")) :
    GetRole svc row s = getRoleByUri svc row.Role s := by
  unfold GetRole
  rw [if_neg h]
  exact match_pair_id _

/-- For `project`/`organization` kinds, a successful scoped lookup is
the result of `GetRole`. -/
theorem GetRole_scoped_ok (svc : RoleSvc) (row : Row) (s : RMState) (role : Role) (s' : RMState)
    (h : row.«Type» = "project" ∨ row.«Type» = "organization")
    (hs : getRoleByUri svc (tryUriOf row) s = (.ok role, s')) :
    GetRole svc row s = (.ok role, s') := by
  unfold GetRole
  rw [if_pos h, hs]

/-- For `project`/`organization` kinds, a failed scoped lookup falls
through to the verbatim lookup in the state the failed attempt left. -/
theorem GetRole_scoped_err (svc : RoleSvc) (row : Row) (s : RMState) (e : String) (s₁ : RMState)
    (h : row.«Type» = "project" ∨ row.«Type» = "organization")
    (hs : getRoleByUri svc (tryUriOf row) s = (.error e, s₁)) :
    GetRole svc row s = getRoleByUri svc row.Role s₁ := by
  unfold GetRole
  rw [if_pos h, hs]
  exact match_pair_id _

/-- The scoped candidate URI is strictly longer than the role
reference, hence distinct from it. -/
theorem tryUriOf_ne_role (row : Row) : tryUriOf row ≠ row.Role := by
  intro h
  have hl := congrArg String.length h
  simp only [tryUriOf, String.length_append] at hl
  have h2 : ("s/" : String).length = 2 := rfl
  have h1 : ("/" : String).length = 1 := rfl
  rw [h2, h1] at hl
  omega

/-- Rows produced by the organization tier all carry kind
`organization`. -/
theorem GetOrgPolicyRows_types (svc : Services) (orgId : String) (rows : List Row)
    (h : GetOrgPolicyRows svc orgId = some (rows, none)) :
    ∀ r ∈ rows, r.«Type» = "organization" := by
  unfold GetOrgPolicyRows at h
  split at h
  · simp at h
  · simp at h
  next orgPolicy hpol =>
    simp only [Option.some.injEq, Prod.mk.injEq] at h
    obtain ⟨rfl, -⟩ := h
    intro r hr
    rcases addBindings_types orgPolicy.Bindings [] orgId ("organization") r hr with h' | h'
    · simp at h'
    · exact h'

/-- Rows accumulated by the folder loop beyond its accumulator all
carry kind `folder`. -/
theorem folderLoop_types (svc : Services) (folders : List Folder) :
    ∀ (rows out : List Row), folderLoop svc folders rows = some (out, none) →
      ∀ r ∈ out, r ∈ rows ∨ r.«Type» = "folder" := by
  induction folders with
  | nil =>
    intro rows out h r hr
    simp only [folderLoop, Option.some.injEq, Prod.mk.injEq] at h
    obtain ⟨rfl, -⟩ := h
    exact Or.inl hr
  | cons f rest ih =>
    intro rows out h r hr
    unfold folderLoop at h
    split at h
    · simp at h
    · simp at h
    next policy hpol =>
      rcases ih _ _ h r hr with h' | h'
      · rcases addBindings_types policy.Bindings rows f.Name ("folder") r h' with h'' | h''
        · exact Or.inl h''
        · exact Or.inr h''
      · exact Or.inr h'

/-- Rows produced by the folder tier all carry kind `folder`. -/
theorem GetFolderPolicyRows_types (svc : Services) (orgId : String) (rows : List Row)
    (h : GetFolderPolicyRows svc orgId = some (rows, none)) :
    ∀ r ∈ rows, r.«Type» = "folder" := by
  unfold GetFolderPolicyRows at h
  split at h
  · simp at h
  next folders hfl =>
    intro r hr
    rcases folderLoop_types svc folders [] rows h r hr with h' | h'
    · simp at h'
    · exact h'

/-- Rows accumulated by the project loop beyond its accumulator all
carry kind `project`. -/
theorem projectLoop_types (svc : Services) (projects : List Project) :
    ∀ (rows out : List Row), projectLoop svc projects rows = some (out, none) →
      ∀ r ∈ out, r ∈ rows ∨ r.«Type» = "project" := by
  induction projects with
  | nil =>
    intro rows out h r hr
    simp only [projectLoop, Option.some.injEq, Prod.mk.injEq] at h
    obtain ⟨rfl, -⟩ := h
    exact Or.inl hr
  | cons p rest ih =>
    intro rows out h r hr
    unfold projectLoop at h
    split at h
    · simp at h
    · simp at h
    next policy hpol =>
      rcases ih _ _ h r hr with h' | h'
      · rcases addBindings_types policy.Bindings rows p.Name ("project") r h' with h'' | h''
        · exact Or.inl h''
        · exact Or.inr h''
      · exact Or.inr h'

/-- Rows produced by the project tier all carry kind `project`. -/
theorem GetProjectPolicyRows_types (svc : Services) (orgId : String) (rows : List Row)
    (h : GetProjectPolicyRows svc orgId = some (rows, none)) :
    ∀ r ∈ rows, r.«Type» = "project" := by
  unfold GetProjectPolicyRows at h
  split at h
  · simp at h
  next projects hpl =>
    intro r hr
    rcases projectLoop_types svc projects [] rows h r hr with h' | h'
    · simp at h'
    · exact h'

/-! ### Claim theorems -/

/-- C2 (code bug): normalization never copies the source condition.
The conversion tests the freshly allocated destination binding's
condition (always nil) instead of the source's, so for every raw
binding of either schema variant the canonical binding's condition is
`none`, even when the source condition is present. -/
theorem claim_c2_condition_never_copied :
    (∀ b : V1Binding, Binding.convertV1 Binding.empty b = some ⟨none, b.Members, b.Role⟩)
    ∧ (∀ b : V2Binding, Binding.convertV2 Binding.empty b = some ⟨none, b.Members, b.Role⟩) :=
  ⟨fun _ => rfl, fun _ => rfl⟩

/-- C3: flattening emits exactly one row per (binding, member) pair, in
binding order then member order, appended after the accumulated rows,
with no deduplication: the result is the literal order-preserving
fan-out, and its length is the accumulator's length plus the sum of the
bindings' member counts. -/
theorem claim_c3_flatten_fanout (bindings : List Binding) (rows : List Row)
    (resource resType : String) :
    addBindings bindings rows resource resType
      = rows ++ bindings.flatMap (fun b => b.Members.map
          (fun m => ⟨resource, resType, b.Role, m⟩))
    ∧ (addBindings bindings rows resource resType).length
      = rows.length + (bindings.map (fun b => b.Members.length)).sum := by
  refine ⟨addBindings_eq bindings rows resource resType, ?_⟩
  rw [addBindings_eq]
  simp [Function.comp_def]

/-- C5: for `project`/`organization` rows the resource-scoped lookup is
attempted first and its failure falls through to the verbatim lookup;
for any other kind (in particular `folder`) only the verbatim lookup is
attempted; and `GetRole` errors only when every attempted lookup
failed. -/
theorem claim_c5_resolution_order (svc : RoleSvc) (row : Row) (s : RMState) :
    (¬(row.«Type» = "project" ∨ row.«Type» = "organization") →
        GetRole svc row s = getRoleByUri svc row.Role s)
    ∧ ((row.«Type» = "project" ∨ row.«Type» = "organization") →
        (∀ role s', getRoleByUri svc (tryUriOf row) s = (.ok role, s') →
            GetRole svc row s = (.ok role, s'))
        ∧ (∀ e s₁, getRoleByUri svc (tryUriOf row) s = (.error e, s₁) →
            GetRole svc row s = getRoleByUri svc row.Role s₁))
    ∧ (∀ e s₂, GetRole svc row s = (.error e, s₂) →
        ∃ s₁, getRoleByUri svc row.Role s₁ = (.error e, s₂)
          ∧ ((row.«Type» = "project" ∨ row.«Type» = "organization") →
              ∃ e₁, getRoleByUri svc (tryUriOf row) s = (.error e₁, s₁))) := by
  refine ⟨fun h => GetRole_other svc row s h,
    fun h => ⟨fun role s' hs => GetRole_scoped_ok svc row s role s' h hs,
              fun e s₁ hs => GetRole_scoped_err svc row s e s₁ h hs⟩, ?_⟩
  intro e s₂ h
  by_cases hP : row.«Type» = "project" ∨ row.«Type» = "organization"
  · rcases hg : getRoleByUri svc (tryUriOf row) s with ⟨res, s₁⟩
    cases res with
    | ok role =>
      rw [GetRole_scoped_ok svc row s role s₁ hP hg] at h
      simp at h
    | error e₁ =>
      rw [GetRole_scoped_err svc row s e₁ s₁ hP hg] at h
      exact ⟨s₁, h, fun _ => ⟨e₁, rfl⟩⟩
  · rw [GetRole_other svc row s hP] at h
    exact ⟨s, h, fun hp => absurd hp hP⟩

/-- C5 witness: with a service knowing only `projects/P/roles/myrole`,
the scoped attempt for the row (`P`, `project`, role `myrole`) fails
and resolution falls through to the verbatim attempt (in the state the
failed scoped attempt left: one service call charged, no key added). -/
theorem claim_c5_witness :
    GetRole svcA rowBare s0 = getRoleByUri svcA rowBare.Role ⟨[], 1⟩ :=
  (claim_c5_resolution_order svcA rowBare s0).2.1 (Or.inl rfl)
    |>.2 ("uri[projects/P/myrole]: lookup failed") ⟨[], 1⟩ (by rfl)

/-- C6: a successful lookup is memoized under exactly the URI used for
it (that key maps to the role; no other key changes); and when
`GetRole` resolves a row successfully, resolving the same row again
returns the identical role while issuing at most one underlying
service call. -/
theorem claim_c6_memoized_idempotent (svc : RoleSvc) :
    (∀ uri s role s', getRoleByUri svc uri s = (.ok role, s') →
        s'.roleMap.lookup uri = some role
        ∧ (∀ k, k ≠ uri → s'.roleMap.lookup k = s.roleMap.lookup k))
    ∧ (∀ row s₀ role₁ s₁, GetRole svc row s₀ = (.ok role₁, s₁) →
        ∃ s₂, GetRole svc row s₁ = (.ok role₁, s₂) ∧ s₂.calls ≤ s₁.calls + 1) := by
  refine ⟨fun uri s role s' h => ⟨(getRoleByUri_ok svc uri s role s' h).1,
    (getRoleByUri_ok svc uri s role s' h).2.1⟩, ?_⟩
  intro row s₀ role₁ s₁ h
  by_cases hP : row.«Type» = "project" ∨ row.«Type» = "organization"
  · rcases hg : getRoleByUri svc (tryUriOf row) s₀ with ⟨res, t₁⟩
    cases res with
    | ok r =>
      rw [GetRole_scoped_ok svc row s₀ r t₁ hP hg] at h
      simp only [Prod.mk.injEq, Except.ok.injEq] at h
      obtain ⟨rfl, rfl⟩ := h
      have hm := (getRoleByUri_ok svc (tryUriOf row) s₀ r t₁ hg).1
      exact ⟨t₁, GetRole_scoped_ok svc row t₁ r t₁ hP
        (getRoleByUri_hit svc (tryUriOf row) t₁ r hm), Nat.le_succ _⟩
    | error e₁ =>
      rw [GetRole_scoped_err svc row s₀ e₁ t₁ hP hg] at h
      obtain ⟨hmapEq, hmiss, hsvc, _⟩ := getRoleByUri_err svc (tryUriOf row) s₀ e₁ t₁ hg
      obtain ⟨hhit, hother, _⟩ := getRoleByUri_ok svc row.Role t₁ role₁ s₁ h
      have hne : tryUriOf row ≠ row.Role := tryUriOf_ne_role row
      have hl1 : s₁.roleMap.lookup (tryUriOf row) = none := by
        rw [hother (tryUriOf row) hne, hmapEq, hmiss]
      have hfail : getRoleByUri svc (tryUriOf row) s₁
          = (.error ("uri[" ++ tryUriOf row ++ "]: lookup failed"), ⟨s₁.roleMap, s₁.calls + 1⟩) :=
        getRoleByUri_miss_none svc (tryUriOf row) s₁ hl1 hsvc
      refine ⟨⟨s₁.roleMap, s₁.calls + 1⟩, ?_, Nat.le_refl _⟩
      rw [GetRole_scoped_err svc row s₁ _ _ hP hfail]
      exact getRoleByUri_hit svc row.Role ⟨s₁.roleMap, s₁.calls + 1⟩ role₁ hhit
  · rw [GetRole_other svc row s₀ hP] at h
    have hm := (getRoleByUri_ok svc row.Role s₀ role₁ s₁ h).1
    exact ⟨s₁, by
      rw [GetRole_other svc row s₁ hP]
      exact getRoleByUri_hit svc row.Role s₁ role₁ hm, Nat.le_succ _⟩

/-- C6 witness: resolving (`P`, `project`, `roles/myrole`) a second
time from the state the first successful resolution left returns the
same role with at most one further service call. -/
theorem claim_c6_witness :
    ∃ s₂, GetRole svcA rowPrefixed ⟨[("projects/P/roles/myrole", roleA)], 1⟩ = (.ok roleA, s₂)
      ∧ s₂.calls ≤ 1 + 1 :=
  (claim_c6_memoized_idempotent svcA).2 rowPrefixed s0 roleA
    ⟨[("projects/P/roles/myrole", roleA)], 1⟩ (by rfl)

/-- C1 counterexample: the custom role exists at
`projects/P/roles/myrole`, yet resolving the binding row with kind
`project`, resource id `P` and role reference `myrole` fails — the
scoped candidate actually built is `projects/P/myrole` (no `roles/`
segment), so neither attempt succeeds. -/
theorem claim_c1_counterexample :
    svcA ("projects/P/roles/myrole") = some roleA
    ∧ GetRole svcA rowBare s0 = (.error ("uri[myrole]: lookup failed"), ⟨[], 2⟩) :=
  ⟨rfl, rfl⟩

/-- C1 (amended): the resource-scoped candidate URI attempted first has
the form `{kind}s/{resourceId}/{roleReference}` — with no `roles/`
segment inserted — and a binding row whose role reference is
`roles/myrole` resolves via the scoped path when the role exists at
`projects/P/roles/myrole`. -/
theorem claim_c1_scoped_uri_form (svc : RoleSvc) (row : Row) (s : RMState) (role : Role)
    (s' : RMState) (hkind : row.«Type» = "project" ∨ row.«Type» = "organization")
    (hscoped : getRoleByUri svc (row.«Type» ++ "s/" ++ row.Resource ++ "/" ++ row.Role) s
      = (.ok role, s')) :
    tryUriOf row = row.«Type» ++ "s/" ++ row.Resource ++ "/" ++ row.Role
    ∧ GetRole svc row s = (.ok role, s') :=
  ⟨rfl, GetRole_scoped_ok svc row s role s' hkind hscoped⟩

/-- C1 witness: for the row (`P`, `project`, role `roles/myrole`) the
scoped candidate is `projects/P/roles/myrole`; resolution succeeds via
it with exactly one service call, memoized under the scoped URI only —
so the bare-name path was never attempted. -/
theorem claim_c1_witness :
    tryUriOf rowPrefixed
      = rowPrefixed.«Type» ++ "s/" ++ rowPrefixed.Resource ++ "/" ++ rowPrefixed.Role
    ∧ GetRole svcA rowPrefixed s0 = (.ok roleA, ⟨[("projects/P/roles/myrole", roleA)], 1⟩) :=
  claim_c1_scoped_uri_form svcA rowPrefixed s0 roleA
    ⟨[("projects/P/roles/myrole", roleA)], 1⟩ (Or.inl rfl) (by rfl)

/-- C4: if any tier fails — the organization policy, any folder's
listing/policy, or any project's listing/policy — the aggregation
returns that error with a nil row collection, discarding any rows the
earlier tiers produced. -/
theorem claim_c4_failfast (svc : Services) (orgId : String) :
    (∀ rows e, GetOrgPolicyRows svc orgId = some (rows, some e) →
        GetAllPolicyRows svc orgId = some (none, some e))
    ∧ (∀ orgRows rows e, GetOrgPolicyRows svc orgId = some (orgRows, none) →
        GetFolderPolicyRows svc orgId = some (rows, some e) →
        GetAllPolicyRows svc orgId = some (none, some e))
    ∧ (∀ orgRows folderRows rows e, GetOrgPolicyRows svc orgId = some (orgRows, none) →
        GetFolderPolicyRows svc orgId = some (folderRows, none) →
        GetProjectPolicyRows svc orgId = some (rows, some e) →
        GetAllPolicyRows svc orgId = some (none, some e)) := by
  refine ⟨?_, ?_, ?_⟩
  · intro rows e h
    unfold GetAllPolicyRows
    rw [h]
  · intro orgRows rows e h1 h2
    unfold GetAllPolicyRows
    rw [h1, h2]
  · intro orgRows folderRows rows e h1 h2 h3
    unfold GetAllPolicyRows
    rw [h1, h2, h3]

/-- C4 witness: with the organization tier succeeding (one binding, one
member) but the second of three folders failing with `boom`, the whole
aggregation returns the error and a nil row collection. -/
theorem claim_c4_witness :
    GetAllPolicyRows svcFail ("O") = some (none, some ("boom")) :=
  (claim_c4_failfast svcFail ("O")).2.1
    [⟨"O", "organization", "roles/viewer", "user:a"⟩] [] ("boom") (by rfl) (by rfl)

/-- C7: every successful aggregation is the concatenation of the
organization-tier rows, then the folder-tier rows, then the
project-tier rows — each wholly of its tier's kind — for every oracle
behaviour. -/
theorem claim_c7_tier_order (svc : Services) (orgId : String) (rows : List Row)
    (h : GetAllPolicyRows svc orgId = some (some rows, none)) :
    ∃ orgRows folderRows projectRows,
      rows = orgRows ++ folderRows ++ projectRows
      ∧ (∀ r ∈ orgRows, r.«Type» = "organization")
      ∧ (∀ r ∈ folderRows, r.«Type» = "folder")
      ∧ (∀ r ∈ projectRows, r.«Type» = "project") := by
  unfold GetAllPolicyRows at h
  split at h
  · simp at h
  · simp at h
  next orgRows horg =>
    split at h
    · simp at h
    · simp at h
    next folderRows hfold =>
      split at h
      · simp at h
      · simp at h
      next projectRows hproj =>
        simp only [Option.some.injEq, Prod.mk.injEq] at h
        obtain ⟨rfl, -⟩ := h
        exact ⟨orgRows, folderRows, projectRows, rfl,
          GetOrgPolicyRows_types svc orgId orgRows horg,
          GetFolderPolicyRows_types svc orgId folderRows hfold,
          GetProjectPolicyRows_types svc orgId projectRows hproj⟩

/-- C7 witness: the end-to-end scenario (org binding with two members,
one folder with no bindings, one project with one member) aggregates
into organization rows, then folder rows, then project rows. -/
theorem claim_c7_witness :
    ∃ orgRows folderRows projectRows,
      ([⟨"O", "organization", "roles/viewer", "user:a@x.com"⟩,
        ⟨"O", "organization", "roles/viewer", "group:g@x.com"⟩,
        ⟨"P", "project", "roles/editor", "user:b@x.com"⟩] : List Row)
        = orgRows ++ folderRows ++ projectRows
      ∧ (∀ r ∈ orgRows, r.«Type» = "organization")
      ∧ (∀ r ∈ folderRows, r.«Type» = "folder")
      ∧ (∀ r ∈ projectRows, r.«Type» = "project") :=
  claim_c7_tier_order svcOk ("O") _ (by rfl)

/-- C8: organization-id derivation honours the fallback order. With an
explicit org id no credential or ancestry lookup occurs; with only a
project id no credential lookup occurs and ancestry is consulted on
that project id; with neither, a credential-discovery failure fails
construction with an error before any ancestry lookup; and a
credential-discovered project id is pushed through the ancestry
lookup. -/
theorem claim_c8_orgid_fallback (cred : CredSvc) (anc : AncestrySvc) (orgId projectId : String) :
    (orgId ≠ "" → NewResourceManager cred anc orgId projectId = (some (.ok orgId), ⟨0, 0⟩))
    ∧ (orgId = "" → projectId ≠ "" →
        (NewResourceManager cred anc orgId projectId).2 = ⟨0, 1⟩
        ∧ ∀ o, GetOrgIdFromProjectId anc projectId = some (.ok o) →
            (NewResourceManager cred anc orgId projectId).1 = some (.ok o))
    ∧ (orgId = "" → projectId = "" → ∀ ce, cred = .error ce →
        NewResourceManager cred anc orgId projectId
          = (some (.error ("Unable to identify OrgId, please specify on CLI or gcloud credentials: "
              ++ ce)), ⟨1, 0⟩))
    ∧ (orgId = "" → projectId = "" → ∀ p o, cred = .ok p →
        GetOrgIdFromProjectId anc p = some (.ok o) →
        NewResourceManager cred anc orgId projectId = (some (.ok o), ⟨1, 1⟩)) := by
  refine ⟨?_, ?_, ?_, ?_⟩
  · intro h
    unfold NewResourceManager
    rw [if_neg h]
  · intro h1 h2
    unfold NewResourceManager
    rw [if_pos h1, if_neg h2]
    constructor
    · cases hg : GetOrgIdFromProjectId anc projectId with
      | none => rfl
      | some r => cases r <;> rfl
    · intro o ho
      rw [ho]
  · intro h1 h2 ce hc
    unfold NewResourceManager
    rw [if_pos h1, if_pos h2, hc]
  · intro h1 h2 p o hc hg
    unfold NewResourceManager
    rw [if_pos h1, if_pos h2, hc]
    simp [hg]

/-- C8 witness: with no org id, no project id, and failing credential
discovery, construction fails with an error (and never reaches the
ancestry lookup). -/
theorem claim_c8_witness :
    NewResourceManager credFail ancOk ("") ("")
      = (some (.error ("Unable to identify OrgId, please specify on CLI or gcloud credentials: "
          ++ "no credentials")), ⟨1, 0⟩) :=
  (claim_c8_orgid_fallback credFail ancOk ("") ("")).2.2.1 rfl rfl ("no credentials") rfl

/-- C9: a row whose role resolution fails is still printed — as the
single CSV line carrying the sentinel permission `UNKNOWN` — with the
failure logged under the offending role reference; and the print loop
never stops early: the output over any concatenation of rows is the
concatenation of the outputs, so rows after a failing row are processed
unchanged. -/
theorem claim_c9_unknown_sentinel (svc : RoleSvc) :
    (∀ r s e s', GetRolePermissions svc r s = (.error e, s') →
        Row.Print svc r s
          = (⟨[csvLine r ("UNKNOWN")], ["Error getting permissions for " ++ r.Role], some e⟩, s'))
    ∧ (∀ rows₁ rows₂ s,
        (printRowsLoop svc (rows₁ ++ rows₂) s).1.1
          = (printRowsLoop svc rows₁ s).1.1
            ++ (printRowsLoop svc rows₂ (printRowsLoop svc rows₁ s).2).1.1
        ∧ (printRowsLoop svc (rows₁ ++ rows₂) s).1.2
          = (printRowsLoop svc rows₁ s).1.2
            ++ (printRowsLoop svc rows₂ (printRowsLoop svc rows₁ s).2).1.2
        ∧ (printRowsLoop svc (rows₁ ++ rows₂) s).2
          = (printRowsLoop svc rows₂ (printRowsLoop svc rows₁ s).2).2) := by
  constructor
  · intro r s e s' h
    unfold Row.Print
    rw [h]
    rfl
  · intro rows₁ rows₂ s
    induction rows₁ generalizing s with
    | nil => simp [printRowsLoop]
    | cons r rest ih =>
      simp only [List.cons_append, printRowsLoop, List.append_eq]
      obtain ⟨ih1, ih2, ih3⟩ := ih (Row.Print svc r s).2
      rw [ih1, ih2, ih3]
      exact ⟨by simp [List.append_assoc], by simp [List.append_assoc], rfl⟩

/-- C9 witness: printing the unresolvable row (`P`, `project`,
`myrole`) emits exactly one CSV line ending in `UNKNOWN`, logs the role
reference, and returns (not raises) the resolution error. -/
theorem claim_c9_witness :
    Row.Print svcA rowBare s0
      = (⟨["P,project,user:a,myrole,UNKNOWN"], ["Error getting permissions for myrole"],
          some ("row: P: uri[myrole]: lookup failed")⟩, ⟨[], 2⟩) :=
  (claim_c9_unknown_sentinel svcA).1 rowBare s0 ("row: P: uri[myrole]: lookup failed")
    ⟨[], 2⟩ (by rfl)

/-- C10: when the ancestor list has a shape the converter does not
recognize it silently converts to the empty sequence, and deriving the
organization id from an empty ancestry indexes out of bounds (a runtime
panic, modelled `none`) instead of returning an error. -/
theorem claim_c10_empty_ancestry_panics (anc : AncestrySvc) (projectId : String)
    (raw : RawAncestors) (h1 : anc projectId = .ok raw) (h2 : convertAncestors raw = []) :
    convertAncestors RawAncestors.unrecognized = ([] : List Ancestor)
    ∧ GetOrgIdFromProjectId anc projectId = none := by
  refine ⟨rfl, ?_⟩
  simp [GetOrgIdFromProjectId, GetAncestryForProject, h1, h2]

/-- C10 witness: an oracle reporting an unrecognized ancestor shape for
project `p` makes organization-id derivation panic. -/
theorem claim_c10_witness :
    convertAncestors RawAncestors.unrecognized = ([] : List Ancestor)
    ∧ GetOrgIdFromProjectId ancU ("p") = none :=
  claim_c10_empty_ancestry_panics ancU ("p") RawAncestors.unrecognized rfl rfl

end PolicyGopher
